
import Mathlib

/-
Verification development for the CACTUS-tools field-grid post-processing
code: `src/pyCactus/CactusField.py` and `src/pyCactusWake.py`.

Modelling conventions of this shallow embedding:
* numeric values (CSV floats) are modelled as exact rationals `ℚ`; numpy
  dtype conversions such as `np.float32(...)` are value-preserving here,
  so every arithmetic identity below is about the exact values;
* a pandas dataframe is a record of its columns, each a `List ℚ`; the
  optional freestream columns are `Option (List ℚ)` (present iff the CSV
  has the column);
* a rank-3 numpy array indexed `[z][y][x]` is `List (List (List ℚ))`, a
  rank-4 array `[t][z][y][x]` adds one more list layer;
* Python/numpy failures (ValueError from a bad reshape, KeyError from a
  missing dict key, IndexError, NameError) are modelled with `Option` or
  `Except PyErr`;
* a Python dict is an association list whose insert overwrites the key.
-/

/-- Rank-3 numpy array of rationals, indexed `[z][y][x]`. -/
abbrev Arr3 := List (List (List ℚ))

/-- Rank-4 numpy array of rationals, indexed `[t][z][y][x]`. -/
abbrev Arr4 := List Arr3

/-- Python list/array slicing `l[a:b]`: a negative bound counts from the
end, and both bounds clamp to the ends of the list. -/
def pySlice (l : List α) (a b : Int) : List α :=
  let n : Int := l.length
  let a' : Nat := (if a < 0 then n + a else min a n).toNat
  let b' : Nat := (if b < 0 then n + b else min b n).toNat
  (l.take b').drop a'

/-- Minimum of a pandas/numpy column, `x.min()` (0 on an empty column,
where pandas yields NaN; theorems below never use it there). -/
def listMin : List ℚ → ℚ
  | [] => 0
  | v :: vs => vs.foldl min v

/-- Maximum of a pandas/numpy column, `x.max()`. -/
def listMax : List ℚ → ℚ
  | [] => 0
  | v :: vs => vs.foldl max v

/-- Scan for `np.argmin`: left to right, keeping the first position of the
least value seen so far. -/
def argminAux : List ℚ → ℚ → Nat → Nat → Nat
  | [], _, _, best => best
  | v :: vs, bv, i, best =>
      if v < bv then argminAux vs v (i + 1) i else argminAux vs bv (i + 1) best

/-- Model of `np.argmin` on a 1-D array: the first index of the minimum
(0 on an empty array, where numpy raises instead). -/
def npArgmin : List ℚ → Nat
  | [] => 0
  | v :: vs => argminAux vs v 1 0

/-- Model of `find_nearest(array, value)` from `pyCactusWake.py`: the value
and index of the entry minimizing the absolute difference to `value`. -/
def find_nearest (arr : List ℚ) (value : ℚ) : ℚ × Nat :=
  let index := npArgmin (arr.map (fun t => |t - value|))
  (arr.getD index 0, index)

/-- Model of `np.unique`: the distinct values, sorted ascending. -/
def npUnique (l : List ℚ) : List ℚ :=
  List.insertionSort (fun a b => a ≤ b) l.dedup

/-- Model of pandas `Series.unique()`: the distinct values in order of
first appearance (only its length matters to the claims below). -/
def uniqueInOrder : List ℚ → List ℚ
  | [] => []
  | v :: vs => v :: uniqueInOrder (vs.filter (fun w => w ≠ v))
termination_by l => l.length
decreasing_by
  simp only [List.length_cons]
  exact Nat.lt_succ_of_le (List.length_filter_le _ _)

/-- Leading-axis split of a flat list into `n` consecutive pieces of `k`
elements each: the row-major semantics of one level of `np.reshape`. -/
def chunk (k : Nat) : Nat → List α → List (List α)
  | 0, _ => []
  | n + 1, l => l.take k :: chunk k n (l.drop k)

/-- Model of `np.reshape(l, [nz, ny, nx])`: row-major fill; `none` when the
element count does not match (numpy raises ValueError there). -/
def reshape3 (l : List ℚ) (nz ny nx : Nat) : Option Arr3 :=
  if l.length = nz * ny * nx then
    some ((chunk (ny * nx) nz l).map (chunk nx ny))
  else none

/-- Model of `np.reshape(l, [nt, nz, ny, nx])` (the 4-D reshape of
`CactusWakeGrid.__init__`). -/
def reshape4 (l : List ℚ) (nt nz ny nx : Nat) : Option Arr4 :=
  if l.length = nt * nz * ny * nx then
    some ((chunk (nz * (ny * nx)) nt l).map (fun b =>
      (chunk (ny * nx) nz b).map (chunk nx ny)))
  else none

/-- Row-major flattening of a rank-3 array, the inverse reading order of
`reshape3`. -/
def flatten3 (a : Arr3) : List ℚ :=
  (a.map List.flatten).flatten

/-- One timestep's tabular field data: the columns of the CSV file as the
code reads them (`Normalized Time`, `X/R`, `Y/R`, `Z/R`, `U/Uinf`,
`V/Uinf`, `W/Uinf`, and the optional `Ufs/Vfs/Wfs` freestream columns). -/
structure DataFrame where
  t : List ℚ
  x : List ℚ
  y : List ℚ
  z : List ℚ
  u : List ℚ
  v : List ℚ
  w : List ℚ
  ufs : Option (List ℚ)
  vfs : Option (List ℚ)
  wfs : Option (List ℚ)
deriving DecidableEq, Repr

/-- The `grid_dims` dictionary built by `fielddata_from_df`. -/
structure GridDims where
  nx : Nat
  ny : Nat
  nz : Nat
  dx : ℚ
  dy : ℚ
  dz : ℚ
  xlim : ℚ × ℚ
  ylim : ℚ × ℚ
  zlim : ℚ × ℚ
deriving DecidableEq, Repr

/-- The `grid_data` dictionary built by `fielddata_from_df`: coordinate and
field arrays shaped `[nz][ny][nx]`; freestream arrays only when the source
table has the freestream columns. -/
structure GridData where
  X : Arr3
  Y : Arr3
  Z : Arr3
  U : Arr3
  V : Arr3
  W : Arr3
  Ufs : Option Arr3
  Vfs : Option Arr3
  Wfs : Option Arr3
deriving DecidableEq, Repr

/-- The `grid_dims` dictionary of `CactusField.fielddata_from_df`: counts
of distinct values per coordinate axis, spacing = (max - min) / count
(count, not count minus one), and the [min, max] extents. -/
def gridDimsOf (df : DataFrame) : GridDims :=
  ⟨(npUnique df.x).length, (npUnique df.y).length, (npUnique df.z).length,
   (listMax df.x - listMin df.x) / ((npUnique df.x).length : ℚ),
   (listMax df.y - listMin df.y) / ((npUnique df.y).length : ℚ),
   (listMax df.z - listMin df.z) / ((npUnique df.z).length : ℚ),
   (listMin df.x, listMax df.x), (listMin df.y, listMax df.y),
   (listMin df.z, listMax df.z)⟩

/-- The freestream part of `fielddata_from_df`: `has_vel_fs` is the
membership test of all three freestream columns; when they are present each
is reshaped like the velocity columns (a reshape failure raises, hence
`none`), otherwise no freestream arrays are produced. -/
def freestreamPart (df : DataFrame) (nz ny nx : Nat) :
    Option (Option Arr3 × Option Arr3 × Option Arr3) :=
  if df.ufs.isSome && df.vfs.isSome && df.wfs.isSome then
    (reshape3 (df.ufs.getD []) nz ny nx).bind fun a =>
    (reshape3 (df.vfs.getD []) nz ny nx).bind fun b =>
    (reshape3 (df.wfs.getD []) nz ny nx).map fun c => (some a, some b, some c)
  else some (none, none, none)

/-- Model of `CactusField.fielddata_from_df`: counts of distinct coordinate
values give `nx, ny, nz`; each column is reshaped row-major to
`[nz][ny][nx]`. Returns `none` where the Python code raises (a reshape
element-count mismatch). The `np.float32` casts of the source are
value-preserving in this exact-arithmetic model. -/
def fielddata_from_df (df : DataFrame) : Option (GridData × GridDims) :=
  (reshape3 df.x (npUnique df.z).length (npUnique df.y).length (npUnique df.x).length).bind fun X =>
  (reshape3 df.y (npUnique df.z).length (npUnique df.y).length (npUnique df.x).length).bind fun Y =>
  (reshape3 df.z (npUnique df.z).length (npUnique df.y).length (npUnique df.x).length).bind fun Z =>
  (reshape3 df.u (npUnique df.z).length (npUnique df.y).length (npUnique df.x).length).bind fun U =>
  (reshape3 df.v (npUnique df.z).length (npUnique df.y).length (npUnique df.x).length).bind fun V =>
  (reshape3 df.w (npUnique df.z).length (npUnique df.y).length (npUnique df.x).length).bind fun W =>
  (freestreamPart df (npUnique df.z).length (npUnique df.y).length (npUnique df.x).length).bind fun fsv =>
  some (⟨X, Y, Z, U, V, W, fsv.1, fsv.2.1, fsv.2.2⟩, gridDimsOf df)

/-- Count of distinct values of a pandas Series, `len(s.unique())`. -/
def pdNumUnique (l : List ℚ) : Nat := (uniqueInOrder l).length

/-- The state `CactusWakeGrid.__init__` builds: unique times, grid counts,
spacings, time-invariant coordinate arrays (the `t = 0` slice) and the 4-D
velocity arrays `[t][z][y][x]`. -/
structure WakeGrid where
  times : List ℚ
  num_times : Nat
  nt : Nat
  nx : Nat
  ny : Nat
  nz : Nat
  dx : ℚ
  dy : ℚ
  dz : ℚ
  X : Arr3
  Y : Arr3
  Z : Arr3
  U : Arr4
  V : Arr4
  W : Arr4
deriving DecidableEq, Repr

/-- Model of `CactusWakeGrid.__init__` on a loaded dataframe: grid
dimensions from pandas-unique counts, spacing = span / count, 4-D row-major
reshape of each column to `[nt][nz][ny][nx]` and the `[0]` time-slice of
the coordinates. `none` where Python raises (reshape size mismatch, or an
empty time axis when `X[0]` is taken). -/
def wakeGridFromDf (df : DataFrame) : Option WakeGrid :=
  (reshape4 df.x (pdNumUnique df.t) (pdNumUnique df.z) (pdNumUnique df.y) (pdNumUnique df.x)).bind fun X4 =>
  (reshape4 df.y (pdNumUnique df.t) (pdNumUnique df.z) (pdNumUnique df.y) (pdNumUnique df.x)).bind fun Y4 =>
  (reshape4 df.z (pdNumUnique df.t) (pdNumUnique df.z) (pdNumUnique df.y) (pdNumUnique df.x)).bind fun Z4 =>
  (reshape4 df.u (pdNumUnique df.t) (pdNumUnique df.z) (pdNumUnique df.y) (pdNumUnique df.x)).bind fun U4 =>
  (reshape4 df.v (pdNumUnique df.t) (pdNumUnique df.z) (pdNumUnique df.y) (pdNumUnique df.x)).bind fun V4 =>
  (reshape4 df.w (pdNumUnique df.t) (pdNumUnique df.z) (pdNumUnique df.y) (pdNumUnique df.x)).bind fun W4 =>
  X4.head?.bind fun X0 =>
  Y4.head?.bind fun Y0 =>
  Z4.head?.bind fun Z0 =>
  some ⟨uniqueInOrder df.t, pdNumUnique df.t, pdNumUnique df.t,
        pdNumUnique df.x, pdNumUnique df.y, pdNumUnique df.z,
        (listMax df.x - listMin df.x) / (pdNumUnique df.x : ℚ),
        (listMax df.y - listMin df.y) / (pdNumUnique df.y : ℚ),
        (listMax df.z - listMin df.z) / (pdNumUnique df.z : ℚ),
        X0, Y0, Z0, U4, V4, W4⟩

/-- Non-fatal warning emitted through Python's `warnings.warn` by
`field_time_stats` when a requested window bound lies outside the data
range: the range is clamped and processing continues. -/
inductive Warn where
  | rangeClamped (t : ℚ)
deriving DecidableEq, Repr

/-- The four per-point time statistics of `field_time_stats`. `stdSq` is
the square of `np.std` (the mean squared deviation): the square root is
irrational in general, and the square determines it, so the model keeps
the rational square. -/
structure StatsOut where
  mean : List ℚ
  stdSq : List ℚ
  minf : List ℚ
  maxf : List ℚ
deriving DecidableEq, Repr

/-- Start-index resolution of `field_time_stats`: `t_start` below the
first time clamps to index 0 with a range warning, otherwise the
nearest-time index is used. -/
def resolveStart (times : List ℚ) (t_start : ℚ) : Nat × List Warn :=
  if t_start < times.getD 0 0 then (0, [Warn.rangeClamped t_start])
  else ((find_nearest times t_start).2, [])

/-- End-index resolution of `field_time_stats`: `t_end` beyond the last
time gives the Python index -1 with a range warning; the sentinel
`t_end = -1` also gives -1; otherwise the nearest-time index. The result
feeds a Python slice, so it is an exclusive bound. -/
def resolveEnd (times : List ℚ) (t_end : ℚ) : Int × List Warn :=
  if t_end > times.getD (times.length - 1) 0 then (-1, [Warn.rangeClamped t_end])
  else if t_end = -1 then (-1, [])
  else (((find_nearest times t_end).2 : Int), [])

/-- Model of `np.mean(rows, axis=0)` on a rectangular 2-D array (leading
axis = time): the pointwise column mean. -/
def meanAxis0 (rows : List (List ℚ)) : List ℚ :=
  match rows with
  | [] => []
  | r0 :: _ => (List.range r0.length).map fun p =>
      ((rows.map fun r => r.getD p 0).sum) / (rows.length : ℚ)

/-- Model of the square of `np.std(rows, axis=0)`: the pointwise mean
squared deviation from the column mean. -/
def varAxis0 (rows : List (List ℚ)) : List ℚ :=
  match rows with
  | [] => []
  | r0 :: _ => (List.range r0.length).map fun p =>
      ((rows.map fun r =>
          (r.getD p 0 - ((rows.map fun s => s.getD p 0).sum) / (rows.length : ℚ)) ^ 2).sum)
        / (rows.length : ℚ)

/-- Model of `np.min(rows, axis=0)` on a rectangular nonempty 2-D array. -/
def minAxis0 (rows : List (List ℚ)) : List ℚ :=
  match rows with
  | [] => []
  | r0 :: _ => (List.range r0.length).map fun p => listMin (rows.map fun (r : List ℚ) => r.getD p 0)

/-- Model of `np.max(rows, axis=0)` on a rectangular nonempty 2-D array. -/
def maxAxis0 (rows : List (List ℚ)) : List ℚ :=
  match rows with
  | [] => []
  | r0 :: _ => (List.range r0.length).map fun p => listMax (rows.map fun (r : List ℚ) => r.getD p 0)

/-- Model of `field_time_stats(field, times, t_start, t_end)` from
`pyCactusWake.py`: resolve the index window (with clamping warnings), then
mean, standard deviation (kept as its square), min and max of the Python
slice `field[index_start:index_end]` along the time axis. -/
def field_time_stats (field : List (List ℚ)) (times : List ℚ) (t_start t_end : ℚ) :
    List Warn × StatsOut :=
  let s := resolveStart times t_start
  let e := resolveEnd times t_end
  let wnd := pySlice field (s.1 : Int) e.1
  (s.2 ++ e.2, ⟨meanAxis0 wnd, varAxis0 wnd, minAxis0 wnd, maxAxis0 wnd⟩)

/-- Model of `calc_tke(U, V, W, times, t_start, t_end)`: per-component
window means via `field_time_stats`, broadcast fluctuations
`mean - instantaneous`, then half the sum of the full-series means of the
squared fluctuations. -/
def calc_tke (U V W : List (List ℚ)) (times : List ℚ) (t_start t_end : ℚ) : List ℚ :=
  let U_mean := (field_time_stats U times t_start t_end).2.mean
  let V_mean := (field_time_stats V times t_start t_end).2.mean
  let W_mean := (field_time_stats W times t_start t_end).2.mean
  let U_fluc := U.map fun r => List.zipWith (fun mu q => mu - q) U_mean r
  let V_fluc := V.map fun r => List.zipWith (fun mu q => mu - q) V_mean r
  let W_fluc := W.map fun r => List.zipWith (fun mu q => mu - q) W_mean r
  let tU := meanAxis0 (U_fluc.map fun r => r.map fun q => q ^ 2)
  let tV := meanAxis0 (V_fluc.map fun r => r.map fun q => q ^ 2)
  let tW := meanAxis0 (W_fluc.map fun r => r.map fun q => q ^ 2)
  (List.zipWith (fun a b => a + b) (List.zipWith (fun a b => a + b) tU tV) tW).map
    fun s => (1 / 2 : ℚ) * s

/-- The time window `field_time_stats` slices out of a field. -/
def windowSlice (F : List (List ℚ)) (times : List ℚ) (t_start t_end : ℚ) :
    List (List ℚ) :=
  pySlice F ((resolveStart times t_start).1 : Int) (resolveEnd times t_end).1

/-- Time-mean of point `p` of a field over the resolved window, as the
spec words it. -/
def windowMeanAt (F : List (List ℚ)) (times : List ℚ) (t_start t_end : ℚ) (p : Nat) : ℚ :=
  (((windowSlice F times t_start t_end).map fun r => r.getD p 0).sum)
    / ((windowSlice F times t_start t_end).length : ℚ)

/-- TKE formula written from the spec sentence, for comparison with
`calc_tke`: half the sum over components of the mean over ALL time samples
of (window-mean minus instantaneous) squared. -/
def tkeSpec (U V W : List (List ℚ)) (times : List ℚ) (t_start t_end : ℚ) : List ℚ :=
  (List.range (U.headD []).length).map fun p =>
    (1 / 2 : ℚ) *
      (((U.map fun r => (windowMeanAt U times t_start t_end p - r.getD p 0) ^ 2).sum)
          / (U.length : ℚ) +
       ((V.map fun r => (windowMeanAt V times t_start t_end p - r.getD p 0) ^ 2).sum)
          / (V.length : ℚ) +
       ((W.map fun r => (windowMeanAt W times t_start t_end p - r.getD p 0) ^ 2).sum)
          / (W.length : ℚ))

/-- The three spatial axes accepted by `slice_in_space`. -/
inductive Axis where
  | x
  | y
  | z
deriving DecidableEq, Repr

/-- Resolution of a numpy integer index along an axis of size `n`:
`-n ≤ i < n` is accepted, a negative `i` counting from the end; anything
else raises IndexError (`none`). -/
def sliceIdx (n : Nat) (i : Int) : Option Nat :=
  if 0 ≤ i ∧ i < (n : Int) then some i.toNat
  else if -(n : Int) ≤ i ∧ i < 0 then some (i + n).toNat
  else none

/-- The grid count along an axis of a wake grid. -/
def axisCount (wg : WakeGrid) : Axis → Nat
  | .x => wg.nx
  | .y => wg.ny
  | .z => wg.nz

/-- Extraction `F[:, :, :, i]`, `F[:, :, i, :]` or `F[:, i, :, :]` of a 4-D
array (the trailing `np.reshape` of `slice_reshape` is an identity on the
already-sliced shape). The resolved index is in range for arrays built by
`wakeGridFromDf`, so the `getD` defaults are never read. -/
def slicePlane (F : Arr4) : Axis → Nat → List (List (List ℚ))
  | .x, i => F.map fun a3 => a3.map fun plane => plane.map fun row => row.getD i 0
  | .y, i => F.map fun a3 => a3.map fun plane => plane.getD i []
  | .z, i => F.map fun a3 => a3.getD i []

/-- Model of `CactusWakeGrid.slice_in_space(axis, i)`: the three velocity
components restricted to the plane at index `i` along `axis`, with numpy
integer-index semantics for `i`. With `inplace=True` the source overwrites
its stored `U, V, W` with exactly this returned triple, so the returned
value is the whole observable behaviour. -/
def slice_in_space (wg : WakeGrid) (axis : Axis) (i : Int) :
    Option (List (List (List ℚ)) × List (List (List ℚ)) × List (List (List ℚ))) :=
  (sliceIdx (axisCount wg axis) i).map fun j =>
    (slicePlane wg.U axis j, slicePlane wg.V axis j, slicePlane wg.W axis j)

/-- Model of `scipy.integrate.trapz(y, x)`: the trapezoidal rule, 0 for
fewer than two samples. -/
def trapz : List ℚ → List ℚ → ℚ
  | y1 :: y2 :: ys, x1 :: x2 :: xs => (x2 - x1) * (y1 + y2) / 2 + trapz (y2 :: ys) (x2 :: xs)
  | _, _ => 0

/-- Model of `get_line_quantity(x_loc, X, Y, U)`: nearest vertical grid
line to `x_loc` among the unique `X` values, and the column of `U` at that
index (`none` models the IndexError of `U[:, idx]` on a too-short row; the
`Y` argument is accepted and ignored, as in the source). -/
def get_line_quantity (x_loc : ℚ) (X Y U : List (List ℚ)) :
    Option (List ℚ × ℚ × Nat) :=
  let x_grid := npUnique X.flatten
  let nr := find_nearest x_grid x_loc
  ((U.mapM fun (r : List ℚ) => r.get? nr.2 : Option (List ℚ))).map fun col =>
    (col, nr.1, nr.2)

/-- Model of `calc_momentum_def(x_loc, X, Y, U)`: extract the `U` column
and matching `Y` column on the line nearest `x_loc` and integrate
`U * (1 - U)` over `Y` by the trapezoidal rule. -/
def calc_momentum_def (x_loc : ℚ) (X Y U : List (List ℚ)) : Option ℚ :=
  (get_line_quantity x_loc X Y U).bind fun lq =>
  ((Y.mapM fun (r : List ℚ) => r.get? lq.2.2 : Option (List ℚ))).map fun y_line =>
    trapz (lq.1.map fun q => q * (1 - q)) y_line

/-- The freestream `grid_data` keys (`Ufs`, `Vfs`, `Wfs`). -/
inductive FsKey where
  | ufs
  | vfs
  | wfs
deriving DecidableEq, Repr

/-- Python exceptions the modelled `CactusField` methods can raise:
a dict KeyError on a freestream `grid_data` key, a dict KeyError on a time
key of `fdict`, the NameError of dividing never-bound loop variables, and
the ValueError of a failed reshape. -/
inductive PyErr where
  | keyErrorCol (k : FsKey)
  | keyErrorTime (t : ℚ)
  | nameError
  | valueError
deriving DecidableEq, Repr

/-- Insertion `d[t] = f` into a Python dict modelled as an association
list: an existing binding of the key is overwritten. -/
def fdictInsert (d : List (ℚ × String)) (t : ℚ) (f : String) : List (ℚ × String) :=
  (d.filter fun p => p.1 ≠ t) ++ [(t, f)]

/-- Dict lookup `d[t]` (`none` models the KeyError). The keys of a dict
built by `fdictInsert` are distinct, so the first match is the binding. -/
def fdictLookup (d : List (ℚ × String)) (t : ℚ) : Option String :=
  (d.find? fun p => p.1 = t).map fun p => p.2

/-- Model of `get_file_time(fname, time_col_name)`: the time of a file is
its first data row's entry of the time column. `fs` models the file
system, mapping a filename to its parsed table. -/
def get_file_time (fs : String → DataFrame) (fname : String) : ℚ :=
  ((fs fname).t).getD 0 0

/-- The state `CactusField.__init__` builds from the file list: the file
count as `num_times`, the per-file times sorted ascending (duplicates
kept), and the `{time : filename}` dict filled in file order. -/
structure CactusFieldRec where
  filenames : List String
  num_times : Nat
  times : List ℚ
  fdict : List (ℚ × String)
deriving DecidableEq, Repr

/-- Model of `CactusField.__init__(filenames)`. The constructor also probes
the first file for `self.grid_dims` (raising if that reconstruction
fails); no claim refers to that attribute, and the probe does not change
`times`, `num_times` or `fdict`, so it is not carried in the record. -/
def cactusFieldInit (fs : String → DataFrame) (filenames : List String) : CactusFieldRec :=
  ⟨filenames, filenames.length,
   List.insertionSort (fun a b => a ≤ b) (filenames.map (get_file_time fs)),
   filenames.foldl (fun d fn => fdictInsert d (get_file_time fs fn) fn) []⟩

/-- Model of `get_df_inst(time)` followed by `fielddata_from_df`: look up
the filename for the time (KeyError when the time is no key), read the
file and reconstruct (the ValueError of a failed reshape propagates). -/
def loadReconstruct (fs : String → DataFrame) (fld : CactusFieldRec) (t : ℚ) :
    Except PyErr (GridData × GridDims) :=
  match fdictLookup fld.fdict t with
  | none => .error (.keyErrorTime t)
  | some fn =>
      match fielddata_from_df (fs fn) with
      | none => .error .valueError
      | some gdd => .ok gdd

/-- The running sums of the `field_time_average` accumulation loop. -/
structure FieldSums where
  U : Arr3
  V : Arr3
  W : Arr3
  Ufs : Arr3
  Vfs : Arr3
  Wfs : Arr3
deriving DecidableEq, Repr

/-- Pointwise sum of two rank-3 arrays (numpy `+` on equal shapes). -/
def add3 (a b : Arr3) : Arr3 :=
  List.zipWith (fun p q => List.zipWith (fun r s => List.zipWith (fun c d => c + d) r s) p q) a b

/-- Pointwise division of a rank-3 array by a count (numpy `/`). -/
def div3 (a : Arr3) (n : Nat) : Arr3 :=
  a.map fun p => p.map fun r => r.map fun q => q / (n : ℚ)

/-- The `ti > 0` iterations of the `field_time_average` loop: each later
timestep is loaded, reconstructed and added; the velocity sums update
before the freestream dict accesses, as in the source, so a missing
freestream key errors on `Ufs` first. -/
def sumSteps (fs : String → DataFrame) (fld : CactusFieldRec) :
    List ℚ → FieldSums → Except PyErr FieldSums
  | [], acc => .ok acc
  | t :: ts, acc =>
      match loadReconstruct fs fld t with
      | .error e => .error e
      | .ok gdd =>
          match gdd.1.Ufs with
          | none => .error (.keyErrorCol .ufs)
          | some ufsA =>
              match gdd.1.Vfs with
              | none => .error (.keyErrorCol .vfs)
              | some vfsA =>
                  match gdd.1.Wfs with
                  | none => .error (.keyErrorCol .wfs)
                  | some wfsA =>
                      sumSteps fs fld ts
                        ⟨add3 acc.U gdd.1.U, add3 acc.V gdd.1.V, add3 acc.W gdd.1.W,
                         add3 acc.Ufs ufsA, add3 acc.Vfs vfsA, add3 acc.Wfs wfsA⟩

/-- The `data_dict_mean` dictionary returned by `field_time_average`. -/
structure AvgData where
  t : List ℚ
  X : Arr3
  Y : Arr3
  Z : Arr3
  U : Arr3
  V : Arr3
  W : Arr3
  Ufs : Arr3
  Vfs : Arr3
  Wfs : Arr3
deriving DecidableEq, Repr

/-- Model of `CactusField.field_time_average(ti_start, ti_end)` (source
defaults -5 and -1, Python negative-from-end slicing): the first window
timestep initializes grid and sums (its freestream keys are referenced
unconditionally), later ones accumulate, and the sums divide by the window
length. An empty window leaves the loop variables unbound and the final
division raises NameError. -/
def field_time_average (fs : String → DataFrame) (fld : CactusFieldRec)
    (ti_start ti_end : Int) : Except PyErr AvgData :=
  match pySlice fld.times ti_start ti_end with
  | [] => .error .nameError
  | t0 :: rest =>
      match loadReconstruct fs fld t0 with
      | .error e => .error e
      | .ok gdd =>
          match gdd.1.Ufs with
          | none => .error (.keyErrorCol .ufs)
          | some ufs0 =>
              match gdd.1.Vfs with
              | none => .error (.keyErrorCol .vfs)
              | some vfs0 =>
                  match gdd.1.Wfs with
                  | none => .error (.keyErrorCol .wfs)
                  | some wfs0 =>
                      match sumSteps fs fld rest ⟨gdd.1.U, gdd.1.V, gdd.1.W, ufs0, vfs0, wfs0⟩ with
                      | .error e => .error e
                      | .ok s =>
                          .ok ⟨t0 :: rest, gdd.1.X, gdd.1.Y, gdd.1.Z,
                               div3 s.U (t0 :: rest).length, div3 s.V (t0 :: rest).length,
                               div3 s.W (t0 :: rest).length, div3 s.Ufs (t0 :: rest).length,
                               div3 s.Vfs (t0 :: rest).length, div3 s.Wfs (t0 :: rest).length⟩

/-- One extracted sample of `pointdata_time_series`: the six velocity
values at one point and one timestep. -/
structure Sample6 where
  u : ℚ
  v : ℚ
  w : ℚ
  ufs : ℚ
  vfs : ℚ
  wfs : ℚ
deriving DecidableEq, Repr, Inhabited

/-- Value of a rank-3 array at indices `(k, j, i)`; in the uses below the
indices are in range for the reshaped arrays, so the defaults are never
read. -/
def arr3At (a : Arr3) (c : Nat × Nat × Nat) : ℚ :=
  ((a.getD c.1 []).getD c.2.1 []).getD c.2.2 0

/-- Error-propagating map, in list order: the first raising element stops
the loop, as a Python exception stops the enclosing `for`. -/
def mapE (f : α → Except PyErr β) : List α → Except PyErr (List β)
  | [] => .ok []
  | a :: as =>
      match f a with
      | .error e => .error e
      | .ok b =>
          match mapE f as with
          | .error e => .error e
          | .ok bs => .ok (b :: bs)

/-- The `data_dict` returned by `pointdata_time_series`: each velocity
component as a `[num_points][num_times]` matrix. -/
structure PointData where
  t : List ℚ
  u : List (List ℚ)
  v : List (List ℚ)
  w : List (List ℚ)
  ufs : List (List ℚ)
  vfs : List (List ℚ)
  wfs : List (List ℚ)
deriving DecidableEq, Repr

/-- Transpose of the timestep-major extracted samples into the
`[num_points][num_times]` layout the source preallocates. -/
def sampleMatrix (rows : List (List Sample6)) (numPoints : Nat) (f : Sample6 → ℚ) :
    List (List ℚ) :=
  (List.range numPoints).map fun pi => rows.map fun r => f (r.getD pi default)

/-- Model of `CactusField.pointdata_time_series(p_list, ti_start, ti_end)`
(source defaults 0 and -1): the grid of `self.times[0]` gives the unique
coordinate values; each requested point resolves per-axis to the nearest
index; every window timestep is reloaded and the six velocity values read
at each resolved `(k, j, i)` — the freestream `grid_data` keys are
referenced unconditionally, so a timestep without them raises KeyError. -/
def pointdata_time_series (fs : String → DataFrame) (fld : CactusFieldRec)
    (p_list : List (ℚ × ℚ × ℚ)) (ti_start ti_end : Int) : Except PyErr PointData :=
  match loadReconstruct fs fld (fld.times.getD 0 0) with
  | .error e => .error e
  | .ok gdd0 =>
      let xs := npUnique (flatten3 gdd0.1.X)
      let ys := npUnique (flatten3 gdd0.1.Y)
      let zs := npUnique (flatten3 gdd0.1.Z)
      let kji := p_list.map fun p =>
        (npArgmin (zs.map fun q => |q - p.2.2|),
         npArgmin (ys.map fun q => |q - p.2.1|),
         npArgmin (xs.map fun q => |q - p.1|))
      let tsw := pySlice fld.times ti_start ti_end
      match mapE (fun t =>
          match loadReconstruct fs fld t with
          | .error e => .error e
          | .ok gdd =>
              mapE (fun c =>
                  match gdd.1.Ufs with
                  | none => .error (PyErr.keyErrorCol .ufs)
                  | some ufsA =>
                      match gdd.1.Vfs with
                      | none => .error (PyErr.keyErrorCol .vfs)
                      | some vfsA =>
                          match gdd.1.Wfs with
                          | none => .error (PyErr.keyErrorCol .wfs)
                          | some wfsA =>
                              .ok ⟨arr3At gdd.1.U c, arr3At gdd.1.V c, arr3At gdd.1.W c,
                                   arr3At ufsA c, arr3At vfsA c, arr3At wfsA c⟩) kji) tsw with
      | .error e => .error e
      | .ok rows =>
          .ok ⟨tsw,
               sampleMatrix rows p_list.length (fun s => s.u),
               sampleMatrix rows p_list.length (fun s => s.v),
               sampleMatrix rows p_list.length (fun s => s.w),
               sampleMatrix rows p_list.length (fun s => s.ufs),
               sampleMatrix rows p_list.length (fun s => s.vfs),
               sampleMatrix rows p_list.length (fun s => s.wfs)⟩

/-- The spec's 2x2x2 scenario table: 8 rows ordered x fastest, then y,
then z, with distinct coordinate triples and all velocity components 1;
no freestream columns. -/
def dfScenario : DataFrame :=
  ⟨[0, 0, 0, 0, 0, 0, 0, 0],
   [0, 1, 0, 1, 0, 1, 0, 1],
   [0, 0, 2, 2, 0, 0, 2, 2],
   [0, 0, 0, 0, 4, 4, 4, 4],
   [1, 1, 1, 1, 1, 1, 1, 1],
   [1, 1, 1, 1, 1, 1, 1, 1],
   [1, 1, 1, 1, 1, 1, 1, 1],
   none, none, none⟩

/-- A 2x2x2 array of ones. -/
def onesArr2 : Arr3 := [[[1, 1], [1, 1]], [[1, 1], [1, 1]]]

/-- The grid data the scenario table reconstructs to: lattice coordinates
and three all-ones 2x2x2 velocity arrays. -/
def scenarioGridData : GridData :=
  ⟨[[[0, 1], [0, 1]], [[0, 1], [0, 1]]],
   [[[0, 0], [2, 2]], [[0, 0], [2, 2]]],
   [[[0, 0], [0, 0]], [[4, 4], [4, 4]]],
   onesArr2, onesArr2, onesArr2,
   none, none, none⟩

/-- The grid dimensions of the scenario table: counts 2 along every axis
and spacings of half the coordinate range. -/
def scenarioDims : GridDims :=
  ⟨2, 2, 2, 1 / 2, 1, 2, (0, 1), (0, 2), (0, 4)⟩

/-- A two-row table holding two timesteps of a single-node grid: the
`CactusWakeGrid` reconstruction succeeds on it while `nx * ny * nz = 1`
differs from its 2 rows. -/
def dfWakeDup : DataFrame :=
  ⟨[0, 1], [5, 5], [7, 7], [9, 9], [0, 0], [0, 0], [0, 0], none, none, none⟩

/-- A single-timestep 2x2x2 wake table with distinguishable velocity
values, for exercising `slice_in_space`. -/
def dfWakeDemo : DataFrame :=
  ⟨[0, 0, 0, 0, 0, 0, 0, 0],
   [0, 1, 0, 1, 0, 1, 0, 1],
   [0, 0, 2, 2, 0, 0, 2, 2],
   [0, 0, 0, 0, 4, 4, 4, 4],
   [1, 2, 3, 4, 5, 6, 7, 8],
   [11, 12, 13, 14, 15, 16, 17, 18],
   [21, 22, 23, 24, 25, 26, 27, 28],
   none, none, none⟩

/-- The scenario table extended with constant freestream columns. -/
def dfWithFs : DataFrame :=
  ⟨[0, 0, 0, 0, 0, 0, 0, 0],
   [0, 1, 0, 1, 0, 1, 0, 1],
   [0, 0, 2, 2, 0, 0, 2, 2],
   [0, 0, 0, 0, 4, 4, 4, 4],
   [1, 1, 1, 1, 1, 1, 1, 1],
   [1, 1, 1, 1, 1, 1, 1, 1],
   [1, 1, 1, 1, 1, 1, 1, 1],
   some [2, 2, 2, 2, 2, 2, 2, 2],
   some [3, 3, 3, 3, 3, 3, 3, 3],
   some [4, 4, 4, 4, 4, 4, 4, 4]⟩

/-- A 2x2x2 array of a constant value. -/
def constArr2 (q : ℚ) : Arr3 := [[[q, q], [q, q]], [[q, q], [q, q]]]

/-- Two demo filenames. -/
def fnameA : String := "a.csv"

/-- Second demo filename. -/
def fnameB : String := "b.csv"

/-- A file system on which every file parses to the freestream-less
scenario table (every file reports time 0). -/
def fsNoFs : String → DataFrame := fun _ => dfScenario

/-- A file system on which every file parses to the freestream-carrying
table. -/
def fsWithFs : String → DataFrame := fun _ => dfWithFs

/-- A `CactusField` over one freestream-less file. -/
def fldNoFs : CactusFieldRec := cactusFieldInit fsNoFs [fnameA]

/-- A `CactusField` over one freestream-carrying file. -/
def fldWithFs : CactusFieldRec := cactusFieldInit fsWithFs [fnameA]

/-- A `CactusField` over two files that report the same time. -/
def fldDup : CactusFieldRec := cactusFieldInit fsNoFs [fnameA, fnameB]

/-- The grid data the freestream-carrying table reconstructs to. -/
def scenarioGridDataFs : GridData :=
  ⟨[[[0, 1], [0, 1]], [[0, 1], [0, 1]]],
   [[[0, 0], [2, 2]], [[0, 0], [2, 2]]],
   [[[0, 0], [0, 0]], [[4, 4], [4, 4]]],
   onesArr2, onesArr2, onesArr2,
   some (constArr2 2), some (constArr2 3), some (constArr2 4)⟩

/-- Decidable equality of `Except` results, so the modelled operations can
be evaluated on concrete inputs. -/
instance exceptDecEq {e a : Type} [DecidableEq e] [DecidableEq a] :
    DecidableEq (Except e a) := fun x y =>
  match x, y with
  | .error u, .error v =>
      match decEq u v with
      | isTrue h => isTrue (by rw [h])
      | isFalse h => isFalse (fun hh => h (by injection hh))
  | .ok u, .ok v =>
      match decEq u v with
      | isTrue h => isTrue (by rw [h])
      | isFalse h => isFalse (fun hh => h (by injection hh))
  | .error _, .ok _ => isFalse (fun hh => by injection hh)
  | .ok _, .error _ => isFalse (fun hh => by injection hh)

/-- Every piece produced by `chunk k n` on a list of `n * k` elements has
exactly `k` elements. -/
theorem chunk_mem_length {α : Type} {k n : Nat} {l : List α} (h : l.length = n * k) :
    ∀ c ∈ chunk k n l, c.length = k := by
  induction n generalizing l with
  | zero => intro c hc; simp [chunk] at hc
  | succ m ih =>
      intro c hc
      have hl : l.length = m * k + k := by rw [h, Nat.succ_mul]
      simp only [chunk, List.mem_cons] at hc
      rcases hc with rfl | hc
      · simp only [List.length_take]
        omega
      · exact ih (by simp only [List.length_drop]; omega) c hc

/-- Concatenating the pieces of `chunk k n` recovers the original list when
the element count matches. -/
theorem chunk_flatten {α : Type} {k n : Nat} {l : List α} (h : l.length = n * k) :
    (chunk k n l).flatten = l := by
  induction n generalizing l with
  | zero =>
      have : l = [] := List.length_eq_zero.mp (by simpa using h)
      simp [chunk, this]
  | succ m ih =>
      have hl : (l.drop k).length = m * k := by
        simp only [List.length_drop, h, Nat.succ_mul]; omega
      simp only [chunk, List.flatten_cons, ih hl]
      exact List.take_append_drop k l

/-- Round trip: flattening a successful `reshape3` in row-major order gives
back the source list. -/
theorem flatten3_reshape3 {l : List ℚ} {nz ny nx : Nat} {a : Arr3}
    (h : reshape3 l nz ny nx = some a) : flatten3 a = l := by
  unfold reshape3 at h
  split at h
  case isTrue hlen =>
      have ha := Option.some.inj h
      subst ha
      have hlen' : l.length = nz * (ny * nx) := by rw [hlen]; ring
      unfold flatten3
      rw [List.map_map]
      have hcong : ∀ c ∈ chunk (ny * nx) nz l,
          (List.flatten ∘ chunk nx ny) c = id c := by
        intro c hc
        have hck : c.length = ny * nx := chunk_mem_length hlen' c hc
        simpa using @chunk_flatten ℚ nx ny c hck
      rw [List.map_congr_left hcong, List.map_id, chunk_flatten hlen']
  case isFalse => exact absurd h (by simp)

/-- A successful `reshape3` pins the source length to the product of the
target shape. -/
theorem reshape3_length {l : List ℚ} {nz ny nx : Nat} {a : Arr3}
    (h : reshape3 l nz ny nx = some a) : l.length = nz * ny * nx := by
  unfold reshape3 at h
  split at h
  · assumption
  · simp at h

/-- A successful `reshape4` pins the source length to the product of the
target shape. -/
theorem reshape4_length {l : List ℚ} {nt nz ny nx : Nat} {a : Arr4}
    (h : reshape4 l nt nz ny nx = some a) : l.length = nt * nz * ny * nx := by
  unfold reshape4 at h
  split at h
  · assumption
  · simp at h

/-- Inversion of a successful `fielddata_from_df`: the dimensions are
`gridDimsOf df` and every returned array is the reshape of its column. -/
theorem fielddata_inv {df : DataFrame} {gd : GridData} {dims : GridDims}
    (h : fielddata_from_df df = some (gd, dims)) :
    dims = gridDimsOf df ∧
    reshape3 df.x dims.nz dims.ny dims.nx = some gd.X ∧
    reshape3 df.y dims.nz dims.ny dims.nx = some gd.Y ∧
    reshape3 df.z dims.nz dims.ny dims.nx = some gd.Z ∧
    reshape3 df.u dims.nz dims.ny dims.nx = some gd.U ∧
    reshape3 df.v dims.nz dims.ny dims.nx = some gd.V ∧
    reshape3 df.w dims.nz dims.ny dims.nx = some gd.W := by
  unfold fielddata_from_df at h
  simp only [Option.bind_eq_some, Option.some.injEq, Prod.mk.injEq] at h
  obtain ⟨X, hX, Y, hY, Z, hZ, U, hU, V, hV, W, hW, fsv, hfs, hgd, hdims⟩ := h
  subst hdims
  subst hgd
  exact ⟨rfl, hX, hY, hZ, hU, hV, hW⟩

/-- Inversion of a successful `CactusWakeGrid` construction: the stored
counts are the pandas-unique counts and the row count of the table is the
product of the 4-D target shape. -/
theorem wakeGrid_inv {df : DataFrame} {wg : WakeGrid}
    (h : wakeGridFromDf df = some wg) :
    wg.nt = pdNumUnique df.t ∧ wg.nx = pdNumUnique df.x ∧
    wg.ny = pdNumUnique df.y ∧ wg.nz = pdNumUnique df.z ∧
    df.x.length =
      pdNumUnique df.t * pdNumUnique df.z * pdNumUnique df.y * pdNumUnique df.x := by
  unfold wakeGridFromDf at h
  simp only [Option.bind_eq_some, Option.some.injEq] at h
  obtain ⟨X4, hX4, Y4, hY4, Z4, hZ4, U4, hU4, V4, hV4, W4, hW4,
    X0, hX0, Y0, hY0, Z0, hZ0, hwg⟩ := h
  subst hwg
  exact ⟨rfl, rfl, rfl, rfl, reshape4_length hX4⟩

/-- Claim C1: for every table that reconstructs successfully through
`fielddata_from_df` (in particular every table of nx*ny*nz rows ordered x
fastest, then y, then z), flattening each returned array X, Y, Z, U, V, W
in the same row-major order reproduces the original column values of the
table exactly, value for value. -/
theorem claim_C1 (df : DataFrame) (gd : GridData) (dims : GridDims)
    (h : fielddata_from_df df = some (gd, dims)) :
    flatten3 gd.X = df.x ∧ flatten3 gd.Y = df.y ∧ flatten3 gd.Z = df.z ∧
    flatten3 gd.U = df.u ∧ flatten3 gd.V = df.v ∧ flatten3 gd.W = df.w := by
  obtain ⟨hd, hX, hY, hZ, hU, hV, hW⟩ := fielddata_inv h
  exact ⟨flatten3_reshape3 hX, flatten3_reshape3 hY, flatten3_reshape3 hZ,
         flatten3_reshape3 hU, flatten3_reshape3 hV, flatten3_reshape3 hW⟩

/-- Witness for claim C1 at the concrete 2x2x2 scenario table. -/
theorem claim_C1_witness :
    fielddata_from_df dfScenario = some (scenarioGridData, scenarioDims) ∧
    (flatten3 scenarioGridData.X = dfScenario.x ∧
     flatten3 scenarioGridData.Y = dfScenario.y ∧
     flatten3 scenarioGridData.Z = dfScenario.z ∧
     flatten3 scenarioGridData.U = dfScenario.u ∧
     flatten3 scenarioGridData.V = dfScenario.v ∧
     flatten3 scenarioGridData.W = dfScenario.w) :=
  ⟨by with_unfolding_all decide,
   claim_C1 dfScenario scenarioGridData scenarioDims (by with_unfolding_all decide)⟩

/-- Counterexample to claim C2 as stated: `dfWakeDup` is a 2-row table on
which the `CactusWakeGrid` reconstruction succeeds (two timesteps of a
one-node grid), yet nx * ny * nz = 1 is not the number of rows, 2. -/
theorem claim_C2_cex :
    (wakeGridFromDf dfWakeDup).map (fun wg => wg.nx * wg.ny * wg.nz) = some 1 ∧
    dfWakeDup.x.length = 2 := by
  with_unfolding_all decide

/-- Claim C2 (amended): for every table reconstructed by
`fielddata_from_df`, nx * ny * nz equals the number of rows; for every
table reconstructed by `CactusWakeGrid`, nt * nx * ny * nz equals the
number of rows, so nx * ny * nz equals the rows per timestep rather than
the total row count. -/
theorem claim_C2 (df : DataFrame) :
    (∀ gd dims, fielddata_from_df df = some (gd, dims) →
        dims.nx * dims.ny * dims.nz = df.x.length) ∧
    (∀ wg, wakeGridFromDf df = some wg →
        wg.nt * (wg.nx * wg.ny * wg.nz) = df.x.length) := by
  constructor
  · intro gd dims h
    obtain ⟨hd, hX, _⟩ := fielddata_inv h
    rw [reshape3_length hX]
    ring
  · intro wg h
    obtain ⟨hnt, hnx, hny, hnz, hlen⟩ := wakeGrid_inv h
    rw [hnt, hnx, hny, hnz, hlen]
    ring

/-- Witness for claim C2 at the concrete scenario table. -/
theorem claim_C2_witness :
    fielddata_from_df dfScenario = some (scenarioGridData, scenarioDims) ∧
    scenarioDims.nx * scenarioDims.ny * scenarioDims.nz = dfScenario.x.length :=
  ⟨by with_unfolding_all decide,
   (claim_C2 dfScenario).1 scenarioGridData scenarioDims (by with_unfolding_all decide)⟩

/-- Claim C3: for every reconstructed grid the reported spacings equal the
coordinate span divided by the count of distinct values along that axis
(count, not count minus one): dx = (xmax - xmin) / nx and likewise for dy
and dz, with nx, ny, nz the distinct-value counts. -/
theorem claim_C3 (df : DataFrame) (gd : GridData) (dims : GridDims)
    (h : fielddata_from_df df = some (gd, dims)) :
    dims.dx = (listMax df.x - listMin df.x) / ((npUnique df.x).length : ℚ) ∧
    dims.dy = (listMax df.y - listMin df.y) / ((npUnique df.y).length : ℚ) ∧
    dims.dz = (listMax df.z - listMin df.z) / ((npUnique df.z).length : ℚ) ∧
    dims.nx = (npUnique df.x).length ∧
    dims.ny = (npUnique df.y).length ∧
    dims.nz = (npUnique df.z).length := by
  obtain ⟨hd, _⟩ := fielddata_inv h
  subst hd
  exact ⟨rfl, rfl, rfl, rfl, rfl, rfl⟩

/-- Witness for claim C3: the 2x2x2 scenario table of 8 rows with
U = V = W = 1 everywhere reconstructs to three 2x2x2 arrays of ones (that
is what `scenarioGridData` holds) with dx, dy, dz equal to half the
coordinate range (1/2, 1 and 2 in `scenarioDims`). -/
theorem claim_C3_witness :
    fielddata_from_df dfScenario = some (scenarioGridData, scenarioDims) ∧
    (scenarioDims.dx = (listMax dfScenario.x - listMin dfScenario.x)
        / ((npUnique dfScenario.x).length : ℚ) ∧
     scenarioDims.dy = (listMax dfScenario.y - listMin dfScenario.y)
        / ((npUnique dfScenario.y).length : ℚ) ∧
     scenarioDims.dz = (listMax dfScenario.z - listMin dfScenario.z)
        / ((npUnique dfScenario.z).length : ℚ) ∧
     scenarioDims.nx = (npUnique dfScenario.x).length ∧
     scenarioDims.ny = (npUnique dfScenario.y).length ∧
     scenarioDims.nz = (npUnique dfScenario.z).length) :=
  ⟨by with_unfolding_all decide,
   claim_C3 dfScenario scenarioGridData scenarioDims (by with_unfolding_all decide)⟩

/-- Counterexample to claim C6 as stated: on the 2x2x2 wake grid built
from `dfWakeDemo` the index -1 violates the precondition 0 ≤ i < 2, yet
`slice_in_space` does not fail: it silently returns the planes counted
from the end of the x axis. -/
theorem claim_C6_cex :
    (wakeGridFromDf dfWakeDemo).map (fun wg => axisCount wg Axis.x) = some 2 ∧
    ((wakeGridFromDf dfWakeDemo).bind fun wg => slice_in_space wg Axis.x (-1)) =
      some ([[[2, 4], [6, 8]]], [[[12, 14], [16, 18]]], [[[22, 24], [26, 28]]]) := by
  with_unfolding_all decide

/-- Claim C6 (amended): `slice_in_space(axis, i)` fails with the
IndexOutOfRange condition exactly when i < -n or i ≥ n, where n is the
grid count along the axis; for -n ≤ i < 0 it does not fail but silently
returns the plane at index i + n (Python negative indexing). -/
theorem claim_C6 (wg : WakeGrid) (axis : Axis) (i : Int) :
    (slice_in_space wg axis i = none ↔
      (i < -(axisCount wg axis : Int) ∨ (axisCount wg axis : Int) ≤ i)) ∧
    (-(axisCount wg axis : Int) ≤ i → i < 0 →
      slice_in_space wg axis i =
        slice_in_space wg axis (i + (axisCount wg axis : Int))) := by
  constructor
  · constructor
    · intro h
      unfold slice_in_space sliceIdx at h
      split_ifs at h with h1 h2
      · simp at h
      · simp at h
      · omega
    · intro h
      have h1 : ¬(0 ≤ i ∧ i < (axisCount wg axis : Int)) := by omega
      have h2 : ¬(-(axisCount wg axis : Int) ≤ i ∧ i < 0) := by omega
      simp [slice_in_space, sliceIdx, h1, h2]
  · intro hge hlt
    have h1 : ¬(0 ≤ i ∧ i < (axisCount wg axis : Int)) := by omega
    have h2 : -(axisCount wg axis : Int) ≤ i ∧ i < 0 := ⟨hge, hlt⟩
    have h3 : 0 ≤ i + (axisCount wg axis : Int) ∧
        i + (axisCount wg axis : Int) < (axisCount wg axis : Int) := by omega
    simp [slice_in_space, sliceIdx, h1, h2, h3]

/-- Claim C5: when `t_start` is strictly below the first available time,
`field_time_stats` emits a non-fatal range-clamped warning, clamps the
start index to 0, and computes the mean, standard deviation, min and max
over the index window from 0 to the resolved end index, the latter used
as an exclusive Python slice bound. -/
theorem claim_C5 (field : List (List ℚ)) (times : List ℚ) (t_start t_end : ℚ)
    (hne : times ≠ []) (hs : t_start < times.head hne) :
    Warn.rangeClamped t_start ∈ (field_time_stats field times t_start t_end).1 ∧
    (resolveStart times t_start).1 = 0 ∧
    (field_time_stats field times t_start t_end).2 =
      ⟨meanAxis0 (pySlice field 0 (resolveEnd times t_end).1),
       varAxis0 (pySlice field 0 (resolveEnd times t_end).1),
       minAxis0 (pySlice field 0 (resolveEnd times t_end).1),
       maxAxis0 (pySlice field 0 (resolveEnd times t_end).1)⟩ := by
  have h0 : times.getD 0 0 = times.head hne := by
    cases times with
    | nil => exact absurd rfl hne
    | cons a l => rfl
  have hcl : t_start < times.getD 0 0 := by rw [h0]; exact hs
  refine ⟨?_, ?_, ?_⟩
  · simp only [field_time_stats, resolveStart]
    rw [if_pos hcl]
    simp
  · simp only [resolveStart]
    rw [if_pos hcl]
  · simp only [field_time_stats, resolveStart]
    rw [if_pos hcl]
    norm_num

/-- Witness for claim C5 on a concrete 3-timestep field with `t_start`
below the first time. -/
theorem claim_C5_witness :
    (5 : ℚ) < 10 ∧
    (Warn.rangeClamped 5 ∈
        (field_time_stats [[1, 2], [3, 4], [5, 6]] [10, 20, 30] 5 25).1 ∧
     (resolveStart [10, 20, 30] 5).1 = 0 ∧
     (field_time_stats [[1, 2], [3, 4], [5, 6]] [10, 20, 30] 5 25).2 =
       ⟨meanAxis0 (pySlice [[1, 2], [3, 4], [5, 6]] 0 (resolveEnd [10, 20, 30] 25).1),
        varAxis0 (pySlice [[1, 2], [3, 4], [5, 6]] 0 (resolveEnd [10, 20, 30] 25).1),
        minAxis0 (pySlice [[1, 2], [3, 4], [5, 6]] 0 (resolveEnd [10, 20, 30] 25).1),
        maxAxis0 (pySlice [[1, 2], [3, 4], [5, 6]] 0 (resolveEnd [10, 20, 30] 25).1)⟩) :=
  ⟨by norm_num,
   claim_C5 [[1, 2], [3, 4], [5, 6]] [10, 20, 30] 5 25 (by simp)
     (by with_unfolding_all decide)⟩

/-- Trapezoidal quadrature of an identically-zero integrand is zero. -/
theorem trapz_zeros : ∀ (ys xs : List ℚ), (∀ q ∈ ys, q = 0) → trapz ys xs = 0
  | [], _, _ => rfl
  | [_], _, _ => rfl
  | _ :: _ :: _, [], _ => rfl
  | _ :: _ :: _, [_], _ => rfl
  | y1 :: y2 :: ys, x1 :: x2 :: xs, h => by
      have h1 : y1 = 0 := h y1 (by simp)
      have h2 : y2 = 0 := h y2 (by simp)
      have hrest : ∀ q ∈ y2 :: ys, q = 0 := fun q hq => h q (List.mem_cons_of_mem _ hq)
      show (x2 - x1) * (y1 + y2) / 2 + trapz (y2 :: ys) (x2 :: xs) = 0
      rw [trapz_zeros (y2 :: ys) (x2 :: xs) hrest, h1, h2]
      norm_num

/-- Claim C9: whenever the scalar field `U` is identically 1 on the grid
line selected by `calc_momentum_def`, the returned momentum deficit is
exactly 0, the integrand U * (1 - U) vanishing at every quadrature node. -/
theorem calc_momentum_inv {x_loc : ℚ} {X Y U : List (List ℚ)} {d : ℚ}
    (h : calc_momentum_def x_loc X Y U = some d) :
    ∃ lq yl, get_line_quantity x_loc X Y U = some lq ∧
      (Y.mapM fun (r : List ℚ) => r.get? lq.2.2 : Option (List ℚ)) = some yl ∧
      trapz (lq.1.map fun q => q * (1 - q)) yl = d := by
  unfold calc_momentum_def at h
  simp only [Option.bind_eq_some, Option.map_eq_some'] at h
  obtain ⟨lq, hlq, yl, hyl, htr⟩ := h
  exact ⟨lq, yl, hlq, hyl, htr⟩

/-- Claim C9: whenever the scalar field `U` is identically 1 on the grid
line selected by `calc_momentum_def`, the returned momentum deficit is
exactly 0, the integrand U * (1 - U) vanishing at every quadrature node. -/
theorem claim_C9 (x_loc : ℚ) (X Y U : List (List ℚ))
    (lq : List ℚ × ℚ × Nat) (d : ℚ)
    (hline : get_line_quantity x_loc X Y U = some lq)
    (hone : ∀ q ∈ lq.1, q = 1)
    (hres : calc_momentum_def x_loc X Y U = some d) :
    d = 0 := by
  obtain ⟨lq2, yl, hline2, hY, htr⟩ := calc_momentum_inv hres
  have hlq : lq2 = lq := by
    rw [hline] at hline2
    exact (Option.some.inj hline2).symm
  subst hlq
  have hz : ∀ q ∈ lq2.1.map (fun q => q * (1 - q)), q = 0 := by
    intro q hq
    obtain ⟨u, hu, rfl⟩ := List.mem_map.mp hq
    rw [hone u hu]
    ring
  rw [← htr]
  exact trapz_zeros _ _ hz

/-- Witness for claim C9 on a concrete 2x2 grid with U identically 1. -/
theorem claim_C9_witness :
    (get_line_quantity (9 / 10) [[0, 1], [0, 1]] [[0, 0], [5, 5]] [[1, 1], [1, 1]]
        = some ([1, 1], 1, 1) ∧
     (∀ q ∈ [(1 : ℚ), 1], q = 1) ∧
     calc_momentum_def (9 / 10) [[0, 1], [0, 1]] [[0, 0], [5, 5]] [[1, 1], [1, 1]]
        = some 0) ∧
    (0 : ℚ) = 0 :=
  ⟨⟨by with_unfolding_all decide, by with_unfolding_all decide,
    by with_unfolding_all decide⟩,
   claim_C9 (9 / 10) [[0, 1], [0, 1]] [[0, 0], [5, 5]] [[1, 1], [1, 1]] ([1, 1], 1, 1) 0
     (by with_unfolding_all decide) (by with_unfolding_all decide)
     (by with_unfolding_all decide)⟩

/-- Dividing a rank-3 array pointwise by a count of one changes nothing. -/
theorem div3_one (a : Arr3) : div3 a 1 = a := by
  unfold div3
  simp

/-- Claim C8: a time-average window holding exactly one timestep makes
`field_time_average` return that single snapshot's coordinate and field
arrays unchanged — the sum of one snapshot divided by a count of one. -/
theorem claim_C8 (fs : String → DataFrame) (fld : CactusFieldRec) (a b : Int)
    (t0 : ℚ) (gd : GridData) (dm : GridDims) (u0 v0 w0 : Arr3)
    (hw : pySlice fld.times a b = [t0])
    (h0 : loadReconstruct fs fld t0 = .ok (gd, dm))
    (hu : gd.Ufs = some u0) (hv : gd.Vfs = some v0) (hwf : gd.Wfs = some w0) :
    field_time_average fs fld a b =
      .ok ⟨[t0], gd.X, gd.Y, gd.Z, gd.U, gd.V, gd.W, u0, v0, w0⟩ := by
  simp only [field_time_average, hw, h0, hu, hv, hwf, sumSteps,
    List.length_cons, List.length_nil]
  norm_num [div3_one]

/-- Witness for claim C8 on the one-file freestream-carrying dataset. -/
theorem claim_C8_witness :
    (pySlice fldWithFs.times 0 1 = [0] ∧
     loadReconstruct fsWithFs fldWithFs 0 = .ok (scenarioGridDataFs, scenarioDims) ∧
     scenarioGridDataFs.Ufs = some (constArr2 2) ∧
     scenarioGridDataFs.Vfs = some (constArr2 3) ∧
     scenarioGridDataFs.Wfs = some (constArr2 4)) ∧
    field_time_average fsWithFs fldWithFs 0 1 =
      .ok ⟨[0], scenarioGridDataFs.X, scenarioGridDataFs.Y, scenarioGridDataFs.Z,
           scenarioGridDataFs.U, scenarioGridDataFs.V, scenarioGridDataFs.W,
           constArr2 2, constArr2 3, constArr2 4⟩ :=
  ⟨⟨by with_unfolding_all decide, by with_unfolding_all decide,
    by with_unfolding_all decide, by with_unfolding_all decide,
    by with_unfolding_all decide⟩,
   claim_C8 fsWithFs fldWithFs 0 1 0 scenarioGridDataFs scenarioDims
     (constArr2 2) (constArr2 3) (constArr2 4)
     (by with_unfolding_all decide) (by with_unfolding_all decide)
     (by with_unfolding_all decide) (by with_unfolding_all decide)
     (by with_unfolding_all decide)⟩

/-- Claim C7: when the source tables lack the freestream columns, both
freestream-using operations — time-averaging and point time-series
extraction — fail with the KeyError naming the missing freestream key
`Ufs` (the freestream-data-absent condition), rather than returning
arrays of zeros or uninitialized values. -/
theorem claim_C7 (fs : String → DataFrame) (fld : CactusFieldRec) (a b : Int)
    (t1 : ℚ) (rest : List ℚ) (gd1 : GridData) (dm1 : GridDims)
    (gd0 : GridData) (dm0 : GridDims)
    (p0 : ℚ × ℚ × ℚ) (ps : List (ℚ × ℚ × ℚ))
    (hw : pySlice fld.times a b = t1 :: rest)
    (h1 : loadReconstruct fs fld t1 = .ok (gd1, dm1))
    (hnofs : gd1.Ufs = none)
    (h0 : loadReconstruct fs fld (fld.times.getD 0 0) = .ok (gd0, dm0)) :
    field_time_average fs fld a b = .error (PyErr.keyErrorCol .ufs) ∧
    pointdata_time_series fs fld (p0 :: ps) a b = .error (PyErr.keyErrorCol .ufs) := by
  constructor
  · simp only [field_time_average, hw, h1, hnofs]
  · simp only [pointdata_time_series, h0, hw, List.map_cons, mapE, h1, hnofs]

/-- Witness for claim C7 on the one-file freestream-less dataset. -/
theorem claim_C7_witness :
    (pySlice fldNoFs.times 0 1 = [0] ∧
     loadReconstruct fsNoFs fldNoFs 0 = .ok (scenarioGridData, scenarioDims) ∧
     scenarioGridData.Ufs = none ∧
     loadReconstruct fsNoFs fldNoFs (fldNoFs.times.getD 0 0)
        = .ok (scenarioGridData, scenarioDims)) ∧
    (field_time_average fsNoFs fldNoFs 0 1 = .error (PyErr.keyErrorCol .ufs) ∧
     pointdata_time_series fsNoFs fldNoFs [(0, 0, 0)] 0 1
        = .error (PyErr.keyErrorCol .ufs)) :=
  ⟨⟨by with_unfolding_all decide, by with_unfolding_all decide,
    by with_unfolding_all decide, by with_unfolding_all decide⟩,
   claim_C7 fsNoFs fldNoFs 0 1 0 [] scenarioGridData scenarioDims
     scenarioGridData scenarioDims (0, 0, 0) []
     (by with_unfolding_all decide) (by with_unfolding_all decide)
     (by with_unfolding_all decide) (by with_unfolding_all decide)⟩

/-- Looking a key up right after inserting it yields the inserted value. -/
theorem fdictLookup_insert_same (d : List (ℚ × String)) (t : ℚ) (f : String) :
    fdictLookup (fdictInsert d t f) t = some f := by
  unfold fdictLookup fdictInsert
  rw [List.find?_append]
  have h1 : (d.filter fun p => p.1 ≠ t).find? (fun p => p.1 = t) = none := by
    apply List.find?_eq_none.mpr
    intro p hp
    have h2 := (List.mem_filter.mp hp).2
    simp at h2 ⊢
    exact h2
  rw [h1]
  simp

/-- Inserting under one key leaves lookups of a different key unchanged. -/
theorem fdictLookup_insert_other (d : List (ℚ × String)) (k t : ℚ) (f : String)
    (hne : k ≠ t) :
    fdictLookup (fdictInsert d k f) t = fdictLookup d t := by
  unfold fdictLookup fdictInsert
  rw [List.find?_append]
  have h1 : (d.filter fun p => p.1 ≠ k).find? (fun p => p.1 = t)
      = d.find? (fun p => p.1 = t) := by
    induction d with
    | nil => rfl
    | cons p d ih =>
        by_cases hpk : p.1 = k
        · have hpt : p.1 ≠ t := by rw [hpk]; exact hne
          rw [List.filter_cons_of_neg (by simpa using hpk),
              List.find?_cons_of_neg _ (by simpa using hpt)]
          exact ih
        · rw [List.filter_cons_of_pos (by simpa using hpk)]
          by_cases hpt : p.1 = t
          · rw [List.find?_cons_of_pos _ (by simpa using hpt),
                List.find?_cons_of_pos _ (by simpa using hpt)]
          · rw [List.find?_cons_of_neg _ (by simpa using hpt),
                List.find?_cons_of_neg _ (by simpa using hpt)]
            exact ih
  rw [h1]
  cases hfd : d.find? (fun p => p.1 = t) with
  | none => simp [List.find?, hne]
  | some p => simp

/-- The head can be dropped from `getLast?` of a nonempty-tailed list. -/
theorem getLast?_cons_ne (a : String) (l : List String) (h : l ≠ []) :
    (a :: l).getLast? = l.getLast? := by
  cases l with
  | nil => exact absurd rfl h
  | cons b m => exact List.getLast?_cons_cons

/-- Lookup through the dict-building fold: the binding of a time is the
last-processed file whose time matches, falling back to the accumulator. -/
theorem fdictLookup_foldl (g : String → ℚ) (t : ℚ) :
    ∀ (l : List String) (d : List (ℚ × String)),
      fdictLookup (l.foldl (fun d fn => fdictInsert d (g fn) fn) d) t =
        ((l.filter fun f => g f = t).getLast?).elim (fdictLookup d t) some
  | [], d => by simp
  | fn :: l, d => by
      rw [List.foldl_cons, fdictLookup_foldl g t l (fdictInsert d (g fn) fn)]
      by_cases hg : g fn = t
      · rw [List.filter_cons_of_pos (by simpa using hg)]
        cases hlf : (l.filter fun f => g f = t).getLast? with
        | none =>
            have hemp : l.filter (fun f => g f = t) = [] := by
              cases hfl : l.filter fun f => g f = t with
              | nil => rfl
              | cons x xs => rw [hfl] at hlf; simp at hlf
            rw [hemp]
            subst hg
            simp [fdictLookup_insert_same]
        | some f2 =>
            have hnemp : l.filter (fun f => g f = t) ≠ [] := by
              intro h
              rw [h] at hlf
              simp at hlf
            rw [getLast?_cons_ne fn _ hnemp, hlf]
            rfl
      · rw [List.filter_cons_of_neg (by simpa using hg),
            fdictLookup_insert_other d (g fn) t fn hg]

/-- The dict-building fold keeps the keys free of duplicates. -/
theorem fdict_keys_nodup (g : String → ℚ) :
    ∀ (l : List String) (d : List (ℚ × String)),
      (d.map Prod.fst).Nodup →
      ((l.foldl (fun d fn => fdictInsert d (g fn) fn) d).map Prod.fst).Nodup
  | [], _, h => h
  | fn :: l, d, h => by
      rw [List.foldl_cons]
      apply fdict_keys_nodup g l
      unfold fdictInsert
      rw [List.map_append]
      apply List.Nodup.append
      · exact h.sublist ((List.filter_sublist d).map Prod.fst)
      · simp
      · intro a ha hb
        simp at hb
        subst hb
        obtain ⟨p, hp, hpa⟩ := List.mem_map.mp ha
        have h2 := (List.mem_filter.mp hp).2
        simp at h2
        exact h2 hpa

/-- The key set of the built dict is the set of file times. -/
theorem fdict_keys_toFinset (g : String → ℚ) :
    ∀ (l : List String) (d : List (ℚ × String)),
      ((l.foldl (fun d fn => fdictInsert d (g fn) fn) d).map Prod.fst).toFinset =
        (d.map Prod.fst).toFinset ∪ (l.map g).toFinset
  | [], d => by simp
  | fn :: l, d => by
      rw [List.foldl_cons, fdict_keys_toFinset g l (fdictInsert d (g fn) fn)]
      have hins : ((fdictInsert d (g fn) fn).map Prod.fst).toFinset =
          insert (g fn) ((d.map Prod.fst).toFinset) := by
        unfold fdictInsert
        ext a
        by_cases hag : a = g fn <;> simp [List.mem_filter, hag]
      rw [hins]
      ext a
      simp

/-- The built dict has one entry per distinct file time. -/
theorem fdict_size (g : String → ℚ) (l : List String) :
    (l.foldl (fun d fn => fdictInsert d (g fn) fn) []).length =
      (l.map g).dedup.length := by
  have hnd := fdict_keys_nodup g l [] (by simp)
  have htf := fdict_keys_toFinset g l []
  calc (l.foldl (fun d fn => fdictInsert d (g fn) fn) []).length
      = ((l.foldl (fun d fn => fdictInsert d (g fn) fn) []).map Prod.fst).length := by
        rw [List.length_map]
    _ = ((l.foldl (fun d fn => fdictInsert d (g fn) fn) []).map Prod.fst).toFinset.card :=
        (List.toFinset_card_of_nodup hnd).symm
    _ = ((l.map g).toFinset).card := by rw [htf]; simp
    _ = (l.map g).dedup.length := List.card_toFinset _

/-- Claim C10: when two input files report the same time value in their
first data rows, `CactusField.__init__` maps that time to only the
last-processed such file in the time-to-filename dict, while `times`
keeps the duplicate entry, `num_times` stays the total file count, and
the dict ends up with fewer entries than `num_times` (one file becomes
unreachable by time lookup). -/
theorem claim_C10 (fs : String → DataFrame) (l1 l2 l3 : List String) (f1 f2 : String)
    (heq : get_file_time fs f1 = get_file_time fs f2) :
    (cactusFieldInit fs (l1 ++ f1 :: (l2 ++ f2 :: l3))).num_times
        = (l1 ++ f1 :: (l2 ++ f2 :: l3)).length ∧
    (cactusFieldInit fs (l1 ++ f1 :: (l2 ++ f2 :: l3))).times.length
        = (l1 ++ f1 :: (l2 ++ f2 :: l3)).length ∧
    2 ≤ (cactusFieldInit fs (l1 ++ f1 :: (l2 ++ f2 :: l3))).times.count
          (get_file_time fs f1) ∧
    (cactusFieldInit fs (l1 ++ f1 :: (l2 ++ f2 :: l3))).fdict.length
        < (cactusFieldInit fs (l1 ++ f1 :: (l2 ++ f2 :: l3))).num_times ∧
    fdictLookup (cactusFieldInit fs (l1 ++ f1 :: (l2 ++ f2 :: l3))).fdict
        (get_file_time fs f1)
      = ((l1 ++ f1 :: (l2 ++ f2 :: l3)).filter
          fun f => get_file_time fs f = get_file_time fs f1).getLast? := by
  have hcnt : 2 ≤ ((l1 ++ f1 :: (l2 ++ f2 :: l3)).map (get_file_time fs)).count
      (get_file_time fs f1) := by
    simp [List.count_append, List.count_cons, heq]
    omega
  refine ⟨rfl, ?_, ?_, ?_, ?_⟩
  · simp [cactusFieldInit, List.length_insertionSort]
  · have hperm := List.perm_insertionSort (fun a b : ℚ => a ≤ b)
      ((l1 ++ f1 :: (l2 ++ f2 :: l3)).map (get_file_time fs))
    show 2 ≤ (List.insertionSort (fun a b : ℚ => a ≤ b)
        ((l1 ++ f1 :: (l2 ++ f2 :: l3)).map (get_file_time fs))).count (get_file_time fs f1)
    rw [hperm.count_eq]
    exact hcnt
  · have hsz := fdict_size (get_file_time fs) (l1 ++ f1 :: (l2 ++ f2 :: l3))
    have hnd : ¬ ((l1 ++ f1 :: (l2 ++ f2 :: l3)).map (get_file_time fs)).Nodup := by
      intro hn
      have h1 := List.nodup_iff_count_le_one.mp hn (get_file_time fs f1)
      omega
    have hsub := List.dedup_sublist ((l1 ++ f1 :: (l2 ++ f2 :: l3)).map (get_file_time fs))
    have hne2 : ((l1 ++ f1 :: (l2 ++ f2 :: l3)).map (get_file_time fs)).dedup.length
        ≠ ((l1 ++ f1 :: (l2 ++ f2 :: l3)).map (get_file_time fs)).length := by
      intro he
      exact hnd (List.dedup_eq_self.mp (hsub.eq_of_length he))
    have hlt := lt_of_le_of_ne hsub.length_le hne2
    rw [List.length_map] at hlt
    show ((l1 ++ f1 :: (l2 ++ f2 :: l3)).foldl
        (fun d fn => fdictInsert d (get_file_time fs fn) fn) []).length
      < (l1 ++ f1 :: (l2 ++ f2 :: l3)).length
    rw [hsz]
    exact hlt
  · show fdictLookup ((l1 ++ f1 :: (l2 ++ f2 :: l3)).foldl
        (fun d fn => fdictInsert d (get_file_time fs fn) fn) []) (get_file_time fs f1) = _
    rw [fdictLookup_foldl (get_file_time fs) (get_file_time fs f1)
        (l1 ++ f1 :: (l2 ++ f2 :: l3)) []]
    cases hlf : ((l1 ++ f1 :: (l2 ++ f2 :: l3)).filter
        fun f => get_file_time fs f = get_file_time fs f1).getLast? <;>
      simp [hlf, fdictLookup, List.find?]

/-- Witness for claim C10: two files that both report time 0. -/
theorem claim_C10_witness :
    get_file_time fsNoFs fnameA = get_file_time fsNoFs fnameB ∧
    ((cactusFieldInit fsNoFs ([] ++ fnameA :: ([] ++ fnameB :: []))).num_times
        = ([] ++ fnameA :: ([] ++ fnameB :: [])).length ∧
     (cactusFieldInit fsNoFs ([] ++ fnameA :: ([] ++ fnameB :: []))).times.length
        = ([] ++ fnameA :: ([] ++ fnameB :: [])).length ∧
     2 ≤ (cactusFieldInit fsNoFs ([] ++ fnameA :: ([] ++ fnameB :: []))).times.count
          (get_file_time fsNoFs fnameA) ∧
     (cactusFieldInit fsNoFs ([] ++ fnameA :: ([] ++ fnameB :: []))).fdict.length
        < (cactusFieldInit fsNoFs ([] ++ fnameA :: ([] ++ fnameB :: []))).num_times ∧
     fdictLookup (cactusFieldInit fsNoFs ([] ++ fnameA :: ([] ++ fnameB :: []))).fdict
        (get_file_time fsNoFs fnameA)
      = (([] ++ fnameA :: ([] ++ fnameB :: [])).filter
          fun f => get_file_time fsNoFs f = get_file_time fsNoFs fnameA).getLast?) :=
  ⟨by with_unfolding_all decide,
   claim_C10 fsNoFs [] [] [] fnameA fnameB (by with_unfolding_all decide)⟩

/-- Element read of a mapped list, inside the bounds. -/
theorem getD_map' {α β : Type} (f : α → β) (l : List α) (p : Nat) (da : α) (db : β)
    (hp : p < l.length) :
    (l.map f).getD p db = f (l.getD p da) := by
  induction l generalizing p with
  | nil => simp at hp
  | cons x xs ih =>
      cases p with
      | zero => simp
      | succ q =>
          simp only [List.map_cons, List.getD_cons_succ]
          exact ih q (by simpa using hp)

/-- Element read of a zipped list, inside both bounds. -/
theorem getD_zipWith (f : ℚ → ℚ → ℚ) (a b : List ℚ) (p : Nat)
    (ha : p < a.length) (hb : p < b.length) :
    (List.zipWith f a b).getD p 0 = f (a.getD p 0) (b.getD p 0) := by
  induction a generalizing b p with
  | nil => simp at ha
  | cons x xs ih =>
      cases b with
      | nil => simp at hb
      | cons y ys =>
          cases p with
          | zero => simp
          | succ q =>
              simp only [List.zipWith_cons_cons, List.getD_cons_succ]
              exact ih ys q (by simpa using ha) (by simpa using hb)

/-- Element read of `List.range`, inside the bound. -/
theorem getD_range (n p : Nat) (hp : p < n) : (List.range n).getD p 0 = p := by
  simp [List.getD_eq_getElem?_getD, List.getElem?_range, hp]

/-- Zipping two maps over the same index list is a single map. -/
theorem zipWith_map_same {α β : Type} (g : β → β → β) (l : List α) (f1 f2 : α → β) :
    List.zipWith g (l.map f1) (l.map f2) = l.map fun x => g (f1 x) (f2 x) := by
  induction l with
  | nil => rfl
  | cons x xs ih => simp [ih]

/-- Closed form of `meanAxis0` on a nonempty rectangular array. -/
theorem meanAxis0_eq (rows : List (List ℚ)) (m : Nat) (hne : rows ≠ [])
    (hrect : ∀ r ∈ rows, r.length = m) :
    meanAxis0 rows = (List.range m).map fun p =>
      ((rows.map fun r => r.getD p 0).sum) / (rows.length : ℚ) := by
  cases rows with
  | nil => exact absurd rfl hne
  | cons r0 rest =>
      show (List.range r0.length).map _ = _
      rw [hrect r0 (by simp)]

/-- Every row of a Python slice is a row of the sliced list. -/
theorem pySlice_subset (l : List (List ℚ)) (a b : Int) :
    ∀ x ∈ pySlice l a b, x ∈ l := by
  intro x hx
  unfold pySlice at hx
  exact List.mem_of_mem_take (List.mem_of_mem_drop hx)

/-- The mean returned by `field_time_stats` is the column mean of the
resolved window slice. -/
theorem fts_mean_eq (f : List (List ℚ)) (t : List ℚ) (a b : ℚ) :
    (field_time_stats f t a b).2.mean = meanAxis0 (windowSlice f t a b) := rfl

/-- Pointwise value of the `field_time_stats` mean: the window mean of the
spec formula. -/
theorem mean_getD_eq_windowMeanAt (F : List (List ℚ)) (times : List ℚ) (a b : ℚ)
    (m p : Nat) (hr : ∀ r ∈ F, r.length = m)
    (hw : windowSlice F times a b ≠ []) (hpm : p < m) :
    ((field_time_stats F times a b).2.mean).getD p 0 = windowMeanAt F times a b p := by
  have hrect : ∀ r ∈ windowSlice F times a b, r.length = m := fun r hrw =>
    hr r (pySlice_subset _ _ _ r hrw)
  rw [fts_mean_eq, meanAxis0_eq _ m hw hrect,
      getD_map' _ _ p 0 0 (by simpa [List.length_range] using hpm),
      getD_range _ _ hpm]
  rfl

/-- Length of the `field_time_stats` mean on a rectangular field with a
nonempty window. -/
theorem fts_mean_length (F : List (List ℚ)) (times : List ℚ) (a b : ℚ) (m : Nat)
    (hr : ∀ r ∈ F, r.length = m) (hw : windowSlice F times a b ≠ []) :
    ((field_time_stats F times a b).2.mean).length = m := by
  have hrect : ∀ r ∈ windowSlice F times a b, r.length = m := fun r hrw =>
    hr r (pySlice_subset _ _ _ r hrw)
  rw [fts_mean_eq, meanAxis0_eq _ m hw hrect]
  simp

/-- One velocity component's term of `calc_tke`: the full-series mean of
the squared window-mean fluctuation, in the spec formula's shape. -/
theorem tke_component (F : List (List ℚ)) (times : List ℚ) (a b : ℚ) (m : Nat)
    (hr : ∀ r ∈ F, r.length = m) (hne : F ≠ [])
    (hw : windowSlice F times a b ≠ []) :
    meanAxis0 ((F.map fun r =>
        List.zipWith (fun mu q => mu - q) (field_time_stats F times a b).2.mean r).map
        fun r => r.map fun q => q ^ 2)
      = (List.range m).map fun p =>
          ((F.map fun r => (windowMeanAt F times a b p - r.getD p 0) ^ 2).sum)
            / (F.length : ℚ) := by
  have hml := fts_mean_length F times a b m hr hw
  have hrowsne : ((F.map fun r =>
      List.zipWith (fun mu q => mu - q) (field_time_stats F times a b).2.mean r).map
      fun r => r.map fun q => q ^ 2) ≠ [] := by
    simp [hne]
  have hrect : ∀ r2 ∈ ((F.map fun r =>
      List.zipWith (fun mu q => mu - q) (field_time_stats F times a b).2.mean r).map
      fun r => r.map fun q => q ^ 2), r2.length = m := by
    intro r2 hr2
    obtain ⟨r1, hr1, rfl⟩ := List.mem_map.mp hr2
    obtain ⟨r, hmem, rfl⟩ := List.mem_map.mp hr1
    simp [List.length_zipWith, hml, hr r hmem]
  rw [meanAxis0_eq _ m hrowsne hrect]
  apply List.map_congr_left
  intro p hp
  have hpm : p < m := List.mem_range.mp hp
  have hsums : (((F.map fun r =>
      List.zipWith (fun mu q => mu - q) (field_time_stats F times a b).2.mean r).map
      fun r => r.map fun q => q ^ 2).map fun r => r.getD p 0)
      = F.map fun r => (windowMeanAt F times a b p - r.getD p 0) ^ 2 := by
    rw [List.map_map, List.map_map]
    apply List.map_congr_left
    intro r hmem
    have hlz : p < (List.zipWith (fun mu q => mu - q)
        (field_time_stats F times a b).2.mean r).length := by
      simp [List.length_zipWith, hml, hr r hmem, hpm]
    simp only [Function.comp]
    rw [getD_map' _ _ p 0 0 hlz,
        getD_zipWith _ _ _ p (by rw [hml]; exact hpm) (by rw [hr r hmem]; exact hpm),
        mean_getD_eq_windowMeanAt F times a b m p hr hw hpm]
  rw [hsums]
  simp

/-- Claim C4: `calc_tke` takes each velocity component's time-mean over
the index window resolved from `t_start` and `t_end`, but averages the
squared fluctuations over ALL available time samples: the returned field
is 0.5 times the sum over the three components of the full-series mean of
(window-mean minus instantaneous) squared — the `tkeSpec` formula. -/
theorem claim_C4 (U V W : List (List ℚ)) (times : List ℚ) (t_start t_end : ℚ) (m : Nat)
    (hUr : ∀ r ∈ U, r.length = m) (hVr : ∀ r ∈ V, r.length = m)
    (hWr : ∀ r ∈ W, r.length = m)
    (hUne : U ≠ []) (hVne : V ≠ []) (hWne : W ≠ [])
    (hwU : windowSlice U times t_start t_end ≠ [])
    (hwV : windowSlice V times t_start t_end ≠ [])
    (hwW : windowSlice W times t_start t_end ≠ []) :
    calc_tke U V W times t_start t_end = tkeSpec U V W times t_start t_end := by
  obtain ⟨r0, U2, rfl⟩ := List.exists_cons_of_ne_nil hUne
  simp only [calc_tke, tkeSpec]
  rw [tke_component (r0 :: U2) times t_start t_end m hUr hUne hwU,
      tke_component V times t_start t_end m hVr hVne hwV,
      tke_component W times t_start t_end m hWr hWne hwW,
      zipWith_map_same, zipWith_map_same, List.map_map]
  have hh : (r0 :: U2).headD [] = r0 := rfl
  rw [hh, hUr r0 (by simp)]
  rfl

/-- Witness for claim C4 on a concrete two-sample field whose resolved
window keeps only the first sample (t_end beyond the last time resolves to
the Python index -1, an exclusive bound). -/
theorem claim_C4_witness :
    ((∀ r ∈ [[(1 : ℚ)], [2]], r.length = 1) ∧
     ([[(1 : ℚ)], [2]] : List (List ℚ)) ≠ [] ∧
     windowSlice [[(1 : ℚ)], [2]] [0, 1] 0 5 ≠ []) ∧
    calc_tke [[(1 : ℚ)], [2]] [[1], [2]] [[1], [2]] [0, 1] 0 5 =
      tkeSpec [[(1 : ℚ)], [2]] [[1], [2]] [[1], [2]] [0, 1] 0 5 :=
  ⟨⟨by with_unfolding_all decide, by with_unfolding_all decide,
    by with_unfolding_all decide⟩,
   claim_C4 [[(1 : ℚ)], [2]] [[1], [2]] [[1], [2]] [0, 1] 0 5 1
     (by with_unfolding_all decide) (by with_unfolding_all decide)
     (by with_unfolding_all decide) (by with_unfolding_all decide)
     (by with_unfolding_all decide) (by with_unfolding_all decide)
     (by with_unfolding_all decide) (by with_unfolding_all decide)
     (by with_unfolding_all decide)⟩
